import Mathlib

/-!
Shallow embedding of the beer-pong scorekeeping backend
(src/main.py and src/schemas.py).

The persistent store holds one document per match; every handler fetches a
single document by id, computes new field values, and writes them back.  We
embed the per-document state as a structure `Match` and each handler as a
pure function from the fetched document (and the parsed request payload) to
either an error or the updated document plus the HTTP response body.  A
handler that returns an error raises before reaching its write, so an
`Except.error` result models "the stored document is unchanged".

Pydantic models whose fields carry `ge`/`le` constraints validate on
construction and raise a ValidationError when a value is out of range; we
model such a constructor as a function returning `Except Unit _` that yields
`Except.error ()` exactly when a constraint fails.  Python ints are
arbitrary-precision, so integer fields are `Int`.
-/

namespace BeerPong

/-- The two team codes, the values of the Literal type with members A and B
in the source. -/
inductive Team where
  | A
  | B
deriving DecidableEq, Repr

/-- Match status, the values of the Literal type with members ongoing and
finished. -/
inductive Status where
  | ongoing
  | finished
deriving DecidableEq, Repr

/-- Embedded hit event (schemas.py, HitEvent).  The timestamp field is
wall-clock time and plays no role in any claim, so it is omitted from the
state. -/
structure HitEvent where
  team : Team
  shooter : Option String
  cups : Int
deriving DecidableEq, Repr

/-- Validating constructor for HitEvent: schemas.py line 24 declares
`cups: int = Field(1, ge=1, le=10)`, so construction raises (returns
`Except.error`) unless `1 ≤ cups ≤ 10`. -/
def mkHitEvent (team : Team) (shooter : Option String) (cups : Int) :
    Except Unit HitEvent :=
  if 1 ≤ cups ∧ cups ≤ 10 then Except.ok ⟨team, shooter, cups⟩
  else Except.error ()

/-- A match document (schemas.py, Match).  The Mongo id and created_at
fields are external to the pydantic model and untouched by the updates the
claims are about, so they are omitted. -/
structure Match where
  team_a : String
  team_b : String
  cups_per_side : Int
  cups_remaining_a : Int
  cups_remaining_b : Int
  status : Status
  winner : Option Team
  events : List HitEvent
deriving DecidableEq, Repr

/-- Validating constructor for Match: schemas.py lines 34-36 declare
`cups_per_side: int = Field(10, ge=1, le=20)`, `cups_remaining_a: int =
Field(10, ge=0)`, `cups_remaining_b: int = Field(10, ge=0)`; construction
raises unless all range constraints hold. -/
def mkMatch (team_a team_b : String)
    (cups_per_side cups_remaining_a cups_remaining_b : Int)
    (status : Status) (winner : Option Team) (events : List HitEvent) :
    Except Unit Match :=
  if 1 ≤ cups_per_side ∧ cups_per_side ≤ 20 ∧
      0 ≤ cups_remaining_a ∧ 0 ≤ cups_remaining_b then
    Except.ok ⟨team_a, team_b, cups_per_side, cups_remaining_a,
      cups_remaining_b, status, winner, events⟩
  else Except.error ()

/-- Errors a handler can surface: an HTTPException with status code and
detail raised explicitly, or a pydantic ValidationError escaping from a
model constructor. -/
inductive ApiError where
  | http (status_code : Nat) (detail : String)
  | validation
deriving DecidableEq, Repr

/-- Request body of POST /api/matches (main.py, CreateMatchRequest).  No
range constraint is declared on cups_per_side here. -/
structure CreateMatchRequest where
  team_a : String
  team_b : String
  cups_per_side : Int
deriving DecidableEq, Repr

/-- Parsing a request body in which cups_per_side may be absent: the
pydantic default on main.py line 37 is 10. -/
def parseCreateMatchRequest (team_a team_b : String)
    (cups_per_side : Option Int) : CreateMatchRequest :=
  ⟨team_a, team_b, cups_per_side.getD 10⟩

/-- create_match (main.py lines 40-49): builds a Match with both
remaining-cup fields equal to cups_per_side and the schema defaults
status ongoing, winner None, events empty, then inserts it.  A
ValidationError from the Match constructor escapes as an error and nothing
is inserted. -/
def create_match (payload : CreateMatchRequest) : Except ApiError Match :=
  match mkMatch payload.team_a payload.team_b payload.cups_per_side
      payload.cups_per_side payload.cups_per_side
      Status.ongoing none [] with
  | Except.ok m => Except.ok m
  | Except.error _ => Except.error ApiError.validation

/-- Request body of POST /api/matches/id/hit (main.py, HitPayload).
cups defaults to 1 and carries no range constraint on this model. -/
structure HitPayload where
  team : Team
  shooter : Option String
  cups : Int
deriving DecidableEq, Repr

/-- The response body of a successful hit: the ok flag is constant, so we
keep the status and winner fields. -/
structure HitResponse where
  status : Status
  winner : Option Team
deriving DecidableEq, Repr

/-- record_hit (main.py lines 77-103), acting on the fetched document doc.
Mirrors the source line by line: reject a finished match with HTTP 400;
select cups_remaining_b when the payload team is A, else cups_remaining_a
(line 85); clamp the decrement at 0 (line 86); on reaching 0 set status
finished and winner to the hitting team (lines 91-93); construct the
HitEvent, whose validation can raise, before the write (line 95); then
write the updated fields and the appended event in one update (lines
97-101).  The not-found branch is the caller fetching doc, outside this
function. -/
def record_hit (doc : Match) (payload : HitPayload) :
    Except ApiError (Match × HitResponse) :=
  if doc.status = Status.finished then
    Except.error (ApiError.http 400 "Match already finished")
  else
    let current := if payload.team = Team.A then doc.cups_remaining_b
      else doc.cups_remaining_a
    let new_value := max 0 (current - payload.cups)
    let winner0 := doc.winner
    let status0 := doc.status
    let status1 := if new_value = 0 then Status.finished else status0
    let winner1 := if new_value = 0 then some payload.team else winner0
    match mkHitEvent payload.team payload.shooter payload.cups with
    | Except.error _ => Except.error ApiError.validation
    | Except.ok event =>
      let doc1 :=
        if payload.team = Team.A then
          { doc with
            cups_remaining_b := new_value,
            status := status1,
            winner := winner1,
            events := doc.events ++ [event] }
        else
          { doc with
            cups_remaining_a := new_value,
            status := status1,
            winner := winner1,
            events := doc.events ++ [event] }
      Except.ok (doc1, ⟨status1, winner1⟩)

/-- reset_match (main.py lines 107-116), acting on the fetched document:
one update restoring both remaining-cup fields to cups_per_side, status to
ongoing, winner to None, events to the empty list.  All other fields of
the document, including its identifier, are not part of the update and are
unchanged. -/
def reset_match (doc : Match) : Match :=
  let cups := doc.cups_per_side
  { doc with
    cups_remaining_a := cups,
    cups_remaining_b := cups,
    status := Status.ongoing,
    winner := none,
    events := [] }

/-- The cup-count field record_hit selects for a hit by team t on match m:
main.py line 85 selects cups_remaining_b when the payload team is A, else
cups_remaining_a. -/
def cupsField (m : Match) (t : Team) : Int :=
  if t = Team.A then m.cups_remaining_b else m.cups_remaining_a

/-- Match documents reachable through the API: created by create_match,
then evolved by successful hits and by resets. -/
inductive Reachable : Match → Prop where
  | created (payload : CreateMatchRequest) (m : Match) :
      create_match payload = Except.ok m → Reachable m
  | hit (m : Match) (payload : HitPayload) (m2 : Match) (r : HitResponse) :
      Reachable m → record_hit m payload = Except.ok (m2, r) → Reachable m2
  | reset (m : Match) : Reachable m → Reachable (reset_match m)

/-- The creation request used to instantiate theorems at concrete inputs. -/
def sampleCreate : CreateMatchRequest := ⟨"Reds", "Blues", 10⟩

/-- A fresh 10-cup match, the result of create_match on sampleCreate. -/
def sampleMatch : Match :=
  ⟨"Reds", "Blues", 10, 10, 10, Status.ongoing, none, []⟩

/-- A concrete hit payload: team A, unnamed shooter, 3 cups. -/
def sampleHit : HitPayload := ⟨Team.A, none, 3⟩

/-- The match resulting from sampleHit applied to sampleMatch. -/
def sampleAfterHit : Match :=
  ⟨"Reds", "Blues", 10, 10, 7, Status.ongoing, none, [⟨Team.A, none, 3⟩]⟩

/-- The response body of that hit. -/
def sampleResponse : HitResponse := ⟨Status.ongoing, none⟩

/-- An ongoing match in which team B has only 2 cups left. -/
def lowMatch : Match :=
  ⟨"Reds", "Blues", 10, 10, 2, Status.ongoing, none, []⟩

/-- A 5-cup hit by team A, more than lowMatch has remaining on side B. -/
def bigHit : HitPayload := ⟨Team.A, none, 5⟩

/-- The match resulting from bigHit applied to lowMatch: clamped to 0 and
finished with winner A. -/
def finishedAfterHit : Match :=
  ⟨"Reds", "Blues", 10, 10, 0, Status.finished, some Team.A,
    [⟨Team.A, none, 5⟩]⟩

/-- The response body of that finishing hit. -/
def finishedResponse : HitResponse := ⟨Status.finished, some Team.A⟩

/-- An already finished match document. -/
def finishedMatch : Match :=
  ⟨"Reds", "Blues", 10, 4, 0, Status.finished, some Team.A, []⟩

/-- A hit payload whose cups value 11 is outside the HitEvent range. -/
def oversizedHit : HitPayload := ⟨Team.B, none, 11⟩

/-- Full characterization of a successful record_hit: the match was not
finished, the cups value passed HitEvent validation, the identifier-stable
fields are unchanged, the event is appended, the response mirrors the new
status and winner, and the cup fields, status and winner are updated
according to the hitting team. -/
theorem record_hit_ok_elim (m : Match) (p : HitPayload) (m2 : Match)
    (r : HitResponse) (h : record_hit m p = Except.ok (m2, r)) :
    m.status ≠ Status.finished ∧ 1 ≤ p.cups ∧ p.cups ≤ 10 ∧
    m2.team_a = m.team_a ∧ m2.team_b = m.team_b ∧
    m2.cups_per_side = m.cups_per_side ∧
    m2.events = m.events ++ [⟨p.team, p.shooter, p.cups⟩] ∧
    r.status = m2.status ∧ r.winner = m2.winner ∧
    ((p.team = Team.A ∧
        m2.cups_remaining_b = max 0 (m.cups_remaining_b - p.cups) ∧
        m2.cups_remaining_a = m.cups_remaining_a ∧
        m2.status = (if max 0 (m.cups_remaining_b - p.cups) = 0
          then Status.finished else m.status) ∧
        m2.winner = (if max 0 (m.cups_remaining_b - p.cups) = 0
          then some Team.A else m.winner)) ∨
     (p.team = Team.B ∧
        m2.cups_remaining_a = max 0 (m.cups_remaining_a - p.cups) ∧
        m2.cups_remaining_b = m.cups_remaining_b ∧
        m2.status = (if max 0 (m.cups_remaining_a - p.cups) = 0
          then Status.finished else m.status) ∧
        m2.winner = (if max 0 (m.cups_remaining_a - p.cups) = 0
          then some Team.B else m.winner))) := by
  rcases p with ⟨t, s, c⟩
  unfold record_hit mkHitEvent at h
  by_cases hf : m.status = Status.finished
  · rw [if_pos hf] at h
    cases h
  · rw [if_neg hf] at h
    by_cases hc : 1 ≤ c ∧ c ≤ 10
    · cases t
      · rw [if_pos hc] at h
        simp only [Except.ok.injEq, Prod.mk.injEq] at h
        obtain ⟨hm, hr⟩ := h
        subst hm
        subst hr
        refine ⟨hf, hc.1, hc.2, rfl, rfl, rfl, rfl, rfl, rfl,
          Or.inl ⟨rfl, ?_, rfl, ?_, ?_⟩⟩ <;> simp
      · rw [if_pos hc] at h
        simp only [Except.ok.injEq, Prod.mk.injEq] at h
        obtain ⟨hm, hr⟩ := h
        subst hm
        subst hr
        refine ⟨hf, hc.1, hc.2, rfl, rfl, rfl, rfl, rfl, rfl,
          Or.inr ⟨rfl, ?_, rfl, ?_, ?_⟩⟩ <;> simp
    · rw [if_neg hc] at h
      cases h

/-- A hit on a non-finished match with a cups value in the HitEvent range
succeeds. -/
theorem record_hit_ok_intro (m : Match) (p : HitPayload)
    (hf : m.status ≠ Status.finished) (h1 : 1 ≤ p.cups) (h2 : p.cups ≤ 10) :
    ∃ m2 r, record_hit m p = Except.ok (m2, r) := by
  unfold record_hit mkHitEvent
  rw [if_neg hf, if_pos (And.intro h1 h2)]
  by_cases ht : p.team = Team.A
  · simp [ht]
  · simp [ht]

/-- Status has exactly the two values ongoing and finished. -/
theorem status_eq_ongoing_of_ne (s : Status) (h : s ≠ Status.finished) :
    s = Status.ongoing := by
  cases s
  · rfl
  · exact absurd rfl h

/-- Characterization of a successful create_match: the cups_per_side value
passed validation and the document has both remaining-cup fields at
cups_per_side, status ongoing, no winner and no events. -/
theorem create_match_ok_elim (payload : CreateMatchRequest) (m : Match)
    (h : create_match payload = Except.ok m) :
    1 ≤ payload.cups_per_side ∧ payload.cups_per_side ≤ 20 ∧
    m = ⟨payload.team_a, payload.team_b, payload.cups_per_side,
      payload.cups_per_side, payload.cups_per_side, Status.ongoing,
      none, []⟩ := by
  unfold create_match mkMatch at h
  by_cases hc : 1 ≤ payload.cups_per_side ∧ payload.cups_per_side ≤ 20 ∧
      0 ≤ payload.cups_per_side ∧ 0 ≤ payload.cups_per_side
  · rw [if_pos hc] at h
    simp only [Except.ok.injEq] at h
    exact ⟨hc.1, hc.2.1, h.symm⟩
  · rw [if_neg hc] at h
    cases h

/-- Combined inductive invariant of reachable match documents: the
cups_per_side range, the bounds on both remaining-cup fields, the
winner-iff-finished property, and positivity of both remaining-cup fields
while the match is ongoing. -/
theorem reachable_inv (m : Match) (h : Reachable m) :
    1 ≤ m.cups_per_side ∧ m.cups_per_side ≤ 20 ∧
    0 ≤ m.cups_remaining_a ∧ m.cups_remaining_a ≤ m.cups_per_side ∧
    0 ≤ m.cups_remaining_b ∧ m.cups_remaining_b ≤ m.cups_per_side ∧
    (m.winner.isSome ↔ m.status = Status.finished) ∧
    (m.status = Status.ongoing →
      1 ≤ m.cups_remaining_a ∧ 1 ≤ m.cups_remaining_b) := by
  induction h with
  | created payload m hc =>
    obtain ⟨h1, h2, hm⟩ := create_match_ok_elim payload m hc
    subst hm
    dsimp only
    refine ⟨h1, h2, by omega, le_refl _, by omega, le_refl _, by simp, ?_⟩
    intro _
    constructor <;> omega
  | hit m p m2 r hr hok ih =>
    obtain ⟨hcps1, hcps2, ha0, hale, hb0, hble, hwiff, hpos⟩ := ih
    obtain ⟨hf, hc1, hc2, hta, htb, hcps, hev, hrs, hrw, hcase⟩ :=
      record_hit_ok_elim m p m2 r hok
    have hso : m.status = Status.ongoing := status_eq_ongoing_of_ne m.status hf
    obtain ⟨hA1, hB1⟩ := hpos hso
    rw [hso] at hwiff
    rw [hcps]
    rcases hcase with ⟨htm, hhit, hkeep, hst, hw⟩ | ⟨htm, hhit, hkeep, hst, hw⟩
    · have hnv0 : (0 : Int) ≤ max 0 (m.cups_remaining_b - p.cups) :=
        le_max_left _ _
      have hnvle : max 0 (m.cups_remaining_b - p.cups) ≤ m.cups_remaining_b :=
        max_le hb0 (by omega)
      refine ⟨hcps1, hcps2, by omega, by omega, by omega, by omega, ?_, ?_⟩
      · rw [hst, hw]
        by_cases hz : max 0 (m.cups_remaining_b - p.cups) = 0
        · rw [if_pos hz, if_pos hz]
          simp
        · rw [if_neg hz, if_neg hz, hso]
          simpa using hwiff
      · intro h2o
        rw [hst] at h2o
        by_cases hz : max 0 (m.cups_remaining_b - p.cups) = 0
        · rw [if_pos hz] at h2o
          cases h2o
        · constructor <;> omega
    · have hnv0 : (0 : Int) ≤ max 0 (m.cups_remaining_a - p.cups) :=
        le_max_left _ _
      have hnvle : max 0 (m.cups_remaining_a - p.cups) ≤ m.cups_remaining_a :=
        max_le ha0 (by omega)
      refine ⟨hcps1, hcps2, by omega, by omega, by omega, by omega, ?_, ?_⟩
      · rw [hst, hw]
        by_cases hz : max 0 (m.cups_remaining_a - p.cups) = 0
        · rw [if_pos hz, if_pos hz]
          simp
        · rw [if_neg hz, if_neg hz, hso]
          simpa using hwiff
      · intro h2o
        rw [hst] at h2o
        by_cases hz : max 0 (m.cups_remaining_a - p.cups) = 0
        · rw [if_pos hz] at h2o
          cases h2o
        · constructor <;> omega
  | reset m hr ih =>
    obtain ⟨hcps1, hcps2, _⟩ := ih
    dsimp only [reset_match]
    refine ⟨hcps1, hcps2, by omega, le_refl _, by omega, le_refl _, by simp, ?_⟩
    intro _
    constructor <;> omega


/-- Selecting the cup field for a team-A hit gives cups_remaining_b. -/
theorem cupsField_team_A (m : Match) : cupsField m Team.A = m.cups_remaining_b :=
  rfl

/-- Selecting the cup field for a team-B hit gives cups_remaining_a. -/
theorem cupsField_team_B (m : Match) : cupsField m Team.B = m.cups_remaining_a :=
  rfl

/-- C1: For every hit recorded on an ongoing match, the cup-count field
decremented is the opposing one: when the payload team is A the operation
updates cups_remaining_b, when it is B it updates cups_remaining_a, and the
remaining-cup field on the hitting side is unchanged. -/
theorem hit_decrements_opposing_cups (m : Match) (p : HitPayload) (m2 : Match)
    (r : HitResponse) (h : record_hit m p = Except.ok (m2, r)) :
    (p.team = Team.A →
      m2.cups_remaining_b = max 0 (m.cups_remaining_b - p.cups) ∧
      m2.cups_remaining_a = m.cups_remaining_a) ∧
    (p.team = Team.B →
      m2.cups_remaining_a = max 0 (m.cups_remaining_a - p.cups) ∧
      m2.cups_remaining_b = m.cups_remaining_b) := by
  obtain ⟨_, _, _, _, _, _, _, _, _, hcase⟩ := record_hit_ok_elim m p m2 r h
  rcases hcase with ⟨htm, hhit, hkeep, _, _⟩ | ⟨htm, hhit, hkeep, _, _⟩
  · refine ⟨fun _ => ⟨hhit, hkeep⟩, fun hB => ?_⟩
    rw [htm] at hB
    cases hB
  · refine ⟨fun hA => ?_, fun _ => ⟨hhit, hkeep⟩⟩
    rw [htm] at hA
    cases hA

/-- Witness for C1: a 3-cup hit by team A on a fresh 10-cup match leaves
side A at 10 and brings side B to 7. -/
theorem hit_decrements_opposing_cups_witness :
    (sampleHit.team = Team.A →
      sampleAfterHit.cups_remaining_b =
        max 0 (sampleMatch.cups_remaining_b - sampleHit.cups) ∧
      sampleAfterHit.cups_remaining_a = sampleMatch.cups_remaining_a) ∧
    (sampleHit.team = Team.B →
      sampleAfterHit.cups_remaining_a =
        max 0 (sampleMatch.cups_remaining_a - sampleHit.cups) ∧
      sampleAfterHit.cups_remaining_b = sampleMatch.cups_remaining_b) :=
  hit_decrements_opposing_cups sampleMatch sampleHit sampleAfterHit
    sampleResponse rfl

/-- C2: A hit with a schema-valid cups value on an ongoing match raises no
error; the targeted remaining-cup field becomes max 0 (current - cups), in
particular it is never negative, and when cups exceeds the remaining count
it becomes exactly 0 and the match finishes. -/
theorem hit_new_value_clamps_at_zero (m : Match) (p : HitPayload)
    (ho : m.status = Status.ongoing) (h1 : 1 ≤ p.cups) (h2 : p.cups ≤ 10) :
    ∃ m2 r, record_hit m p = Except.ok (m2, r) ∧
      cupsField m2 p.team = max 0 (cupsField m p.team - p.cups) ∧
      0 ≤ cupsField m2 p.team ∧
      (cupsField m p.team < p.cups →
        cupsField m2 p.team = 0 ∧ m2.status = Status.finished) := by
  have hf : m.status ≠ Status.finished := by
    rw [ho]
    intro hx
    cases hx
  obtain ⟨m2, r, hok⟩ := record_hit_ok_intro m p hf h1 h2
  obtain ⟨_, _, _, _, _, _, _, _, _, hcase⟩ := record_hit_ok_elim m p m2 r hok
  refine ⟨m2, r, hok, ?_⟩
  rcases hcase with ⟨htm, hhit, hkeep, hst, hw⟩ | ⟨htm, hhit, hkeep, hst, hw⟩
  · rw [htm]
    simp only [cupsField_team_A]
    refine ⟨hhit, by rw [hhit]; exact le_max_left _ _, ?_⟩
    intro hlt
    have hz : max 0 (m.cups_remaining_b - p.cups) = 0 :=
      max_eq_left (by omega)
    rw [if_pos hz] at hst
    exact ⟨by rw [hhit, hz], hst⟩
  · rw [htm]
    simp only [cupsField_team_B]
    refine ⟨hhit, by rw [hhit]; exact le_max_left _ _, ?_⟩
    intro hlt
    have hz : max 0 (m.cups_remaining_a - p.cups) = 0 :=
      max_eq_left (by omega)
    rw [if_pos hz] at hst
    exact ⟨by rw [hhit, hz], hst⟩

/-- Witness for C2: a 5-cup hit by team A on a match with 2 cups left on
side B succeeds, clamps side B to 0 and finishes the match. -/
theorem hit_new_value_clamps_at_zero_witness :
    ∃ m2 r, record_hit lowMatch bigHit = Except.ok (m2, r) ∧
      cupsField m2 bigHit.team =
        max 0 (cupsField lowMatch bigHit.team - bigHit.cups) ∧
      0 ≤ cupsField m2 bigHit.team ∧
      (cupsField lowMatch bigHit.team < bigHit.cups →
        cupsField m2 bigHit.team = 0 ∧ m2.status = Status.finished) :=
  hit_new_value_clamps_at_zero lowMatch bigHit rfl (by decide) (by decide)

/-- C3: For every successful hit, if the clamped new remaining-cup value is
0 the resulting match has status finished and winner equal to the payload
team; if it is nonzero, status and winner are unchanged from the current
document. -/
theorem hit_finish_and_winner_rule (m : Match) (p : HitPayload) (m2 : Match)
    (r : HitResponse) (h : record_hit m p = Except.ok (m2, r)) :
    (cupsField m2 p.team = 0 →
      m2.status = Status.finished ∧ m2.winner = some p.team) ∧
    (cupsField m2 p.team ≠ 0 →
      m2.status = m.status ∧ m2.winner = m.winner) := by
  obtain ⟨_, _, _, _, _, _, _, _, _, hcase⟩ := record_hit_ok_elim m p m2 r h
  rcases hcase with ⟨htm, hhit, _, hst, hw⟩ | ⟨htm, hhit, _, hst, hw⟩
  · rw [htm]
    simp only [cupsField_team_A]
    rw [hhit]
    constructor
    · intro hz
      rw [if_pos hz] at hst hw
      exact ⟨hst, hw⟩
    · intro hz
      rw [if_neg hz] at hst hw
      exact ⟨hst, hw⟩
  · rw [htm]
    simp only [cupsField_team_B]
    rw [hhit]
    constructor
    · intro hz
      rw [if_pos hz] at hst hw
      exact ⟨hst, hw⟩
    · intro hz
      rw [if_neg hz] at hst hw
      exact ⟨hst, hw⟩

/-- Witness for C3: the finishing 5-cup hit on lowMatch drives the targeted
field to 0, sets status finished and winner A. -/
theorem hit_finish_and_winner_rule_witness :
    (cupsField finishedAfterHit bigHit.team = 0 →
      finishedAfterHit.status = Status.finished ∧
      finishedAfterHit.winner = some bigHit.team) ∧
    (cupsField finishedAfterHit bigHit.team ≠ 0 →
      finishedAfterHit.status = lowMatch.status ∧
      finishedAfterHit.winner = lowMatch.winner) :=
  hit_finish_and_winner_rule lowMatch bigHit finishedAfterHit
    finishedResponse rfl

/-- C4: Recording a hit on a finished match fails with HTTP 400 and detail
"match already finished"; the handler raises before computing any update,
so the stored document, including cup counts, status, winner and events,
is unchanged. -/
theorem finished_match_hit_rejected (m : Match) (p : HitPayload)
    (h : m.status = Status.finished) :
    record_hit m p = Except.error (ApiError.http 400 "Match already finished") := by
  unfold record_hit
  rw [if_pos h]

/-- Witness for C4: any hit on the concrete finished match is rejected. -/
theorem finished_match_hit_rejected_witness :
    record_hit finishedMatch sampleHit =
      Except.error (ApiError.http 400 "Match already finished") :=
  finished_match_hit_rejected finishedMatch sampleHit rfl

/-- C5: For every reachable match document, the winner field is set exactly
when the status is finished; the invariant holds at creation and is
preserved by every successful hit and every reset. -/
theorem winner_iff_finished (m : Match) (h : Reachable m) :
    m.winner.isSome ↔ m.status = Status.finished :=
  (reachable_inv m h).2.2.2.2.2.2.1

/-- Witness for C5 at the freshly created match. -/
theorem winner_iff_finished_witness :
    sampleMatch.winner.isSome ↔ sampleMatch.status = Status.finished :=
  winner_iff_finished sampleMatch
    (Reachable.created sampleCreate sampleMatch rfl)

/-- C6: For every reachable match, both remaining-cup fields lie between 0
and cups_per_side, and every successful hit leaves each remaining-cup field
less than or equal to its previous value. -/
theorem cups_within_bounds_and_monotone (m : Match) (h : Reachable m) :
    0 ≤ m.cups_remaining_a ∧ m.cups_remaining_a ≤ m.cups_per_side ∧
    0 ≤ m.cups_remaining_b ∧ m.cups_remaining_b ≤ m.cups_per_side ∧
    ∀ p m2 r, record_hit m p = Except.ok (m2, r) →
      m2.cups_remaining_a ≤ m.cups_remaining_a ∧
      m2.cups_remaining_b ≤ m.cups_remaining_b := by
  obtain ⟨hcps1, hcps2, ha0, hale, hb0, hble, _, _⟩ := reachable_inv m h
  refine ⟨ha0, hale, hb0, hble, ?_⟩
  intro p m2 r hok
  obtain ⟨_, hc1, _, _, _, _, _, _, _, hcase⟩ := record_hit_ok_elim m p m2 r hok
  rcases hcase with ⟨_, hhit, hkeep, _, _⟩ | ⟨_, hhit, hkeep, _, _⟩
  · constructor
    · rw [hkeep]
    · rw [hhit]
      exact max_le hb0 (by omega)
  · constructor
    · rw [hhit]
      exact max_le ha0 (by omega)
    · rw [hkeep]

/-- Witness for C6 at the freshly created match. -/
theorem cups_within_bounds_and_monotone_witness :
    0 ≤ sampleMatch.cups_remaining_a ∧
    sampleMatch.cups_remaining_a ≤ sampleMatch.cups_per_side ∧
    0 ≤ sampleMatch.cups_remaining_b ∧
    sampleMatch.cups_remaining_b ≤ sampleMatch.cups_per_side ∧
    ∀ p m2 r, record_hit sampleMatch p = Except.ok (m2, r) →
      m2.cups_remaining_a ≤ sampleMatch.cups_remaining_a ∧
      m2.cups_remaining_b ≤ sampleMatch.cups_remaining_b :=
  cups_within_bounds_and_monotone sampleMatch
    (Reachable.created sampleCreate sampleMatch rfl)

/-- C7: reset_match on any match, ongoing or finished, restores both
remaining-cup fields to cups_per_side, sets status to ongoing, clears the
winner, empties the events list, and leaves team names and cups_per_side
unchanged.  The document identifier is not part of the update at all. -/
theorem reset_restores_match (m : Match) :
    (reset_match m).cups_remaining_a = m.cups_per_side ∧
    (reset_match m).cups_remaining_b = m.cups_per_side ∧
    (reset_match m).status = Status.ongoing ∧
    (reset_match m).winner = none ∧
    (reset_match m).events = [] ∧
    (reset_match m).team_a = m.team_a ∧
    (reset_match m).team_b = m.team_b ∧
    (reset_match m).cups_per_side = m.cups_per_side := by
  unfold reset_match
  exact ⟨rfl, rfl, rfl, rfl, rfl, rfl, rfl, rfl⟩

/-- C8 counterexample: a create request with cupsPerSide 25 is rejected
with a validation error; it is not clamped to 20, no match is created. -/
theorem create_match_25_not_clamped :
    create_match ⟨"Reds", "Blues", 25⟩ = Except.error ApiError.validation :=
  rfl

/-- C8 amended: cupsPerSide defaults to 10 when the field is omitted; the
request schema imposes no range, and a value outside the range 1 to 20 is
rejected with a validation error when the Match document is constructed
(the request fails and no match is created) rather than being replaced by
the nearest bound. -/
theorem create_match_rejects_out_of_range (a b : String) (c : Int)
    (h : c < 1 ∨ 20 < c) :
    create_match ⟨a, b, c⟩ = Except.error ApiError.validation ∧
    (parseCreateMatchRequest a b none).cups_per_side = 10 := by
  constructor
  · unfold create_match mkMatch
    have hc : ¬(1 ≤ c ∧ c ≤ 20 ∧ 0 ≤ c ∧ 0 ≤ c) := by omega
    rw [if_neg hc]
  · rfl

/-- Witness for the amended C8 at cupsPerSide 25. -/
theorem create_match_rejects_out_of_range_witness :
    create_match ⟨"Gold", "Silver", 25⟩ = Except.error ApiError.validation ∧
    (parseCreateMatchRequest "Gold" "Silver" none).cups_per_side = 10 :=
  create_match_rejects_out_of_range "Gold" "Silver" 25 (by decide)

/-- C9: The HitPayload model imposes no range on cups, but a hit whose cups
value lies outside 1 to 10 on an ongoing match fails when the HitEvent is
constructed, before the database write is reached: the handler returns a
validation error and the stored document is unchanged. -/
theorem out_of_range_cups_rejected (m : Match) (p : HitPayload)
    (ho : m.status = Status.ongoing) (hc : p.cups < 1 ∨ 10 < p.cups) :
    record_hit m p = Except.error ApiError.validation := by
  have hf : ¬m.status = Status.finished := by
    rw [ho]
    intro hx
    cases hx
  have hcc : ¬(1 ≤ p.cups ∧ p.cups ≤ 10) := by omega
  unfold record_hit mkHitEvent
  rw [if_neg hf, if_neg hcc]

/-- Witness for C9: an 11-cup hit on a fresh ongoing match is rejected with
a validation error. -/
theorem out_of_range_cups_rejected_witness :
    record_hit sampleMatch oversizedHit = Except.error ApiError.validation :=
  out_of_range_cups_rejected sampleMatch oversizedHit rfl (by decide)

/-- C10: In every reachable match whose status is ongoing, both remaining
cup counts are at least 1: a remaining-cup field reaches 0 only in the
transition that sets the status to finished. -/
theorem ongoing_match_cups_positive (m : Match) (h : Reachable m)
    (ho : m.status = Status.ongoing) :
    1 ≤ m.cups_remaining_a ∧ 1 ≤ m.cups_remaining_b :=
  (reachable_inv m h).2.2.2.2.2.2.2 ho

/-- Witness for C10 at the freshly created match. -/
theorem ongoing_match_cups_positive_witness :
    1 ≤ sampleMatch.cups_remaining_a ∧ 1 ≤ sampleMatch.cups_remaining_b :=
  ongoing_match_cups_positive sampleMatch
    (Reachable.created sampleCreate sampleMatch rfl) rfl

end BeerPong
